import Mathlib

/-!
Shallow embedding of the authenticated HTTP client of the GalleryApp
front end: the zustand session store (`src/stores/userAuthStore.ts`),
the axios instance with its request and response interceptors
(`src/services/userAxiosInstance.ts`), and the public API wrappers
(`src/services/userApi.ts`).

The browser world is made explicit: `localStorage` becomes a record of
the three keys the code touches, the zustand store becomes an
`AuthState` record, and the side effects the code performs
(`window.location.href = ...`, `toast.error(...)`, `console.error`,
network calls) become append-only logs inside one `ClientState`.
Network results (axios responses and rejections) are oracle parameters,
since the remote server is outside the program.
-/

namespace GalleryApp

/-- The three localStorage keys the code reads and writes:
the zustand persist blob under the fixed name given at
`userAuthStore.ts` line 36, plus `accessToken` and `userEmail`.
`none` models an absent key. -/
structure Storage where
  authStore : Option String
  accessToken : Option String
  userEmail : Option String
deriving Repr, DecidableEq

/-- In-memory zustand state (`userAuthStore.ts` lines 5-10):
`isAuthenticated` and `email`. -/
structure AuthState where
  isAuthenticated : Bool
  email : Option String
deriving Repr, DecidableEq

/-- The observable world of the client: persisted storage, the
in-memory session, and append-only logs of redirects
(assignments to `window.location.href`), toast notifications
(`toast.error`), console errors, and network calls issued. -/
structure ClientState where
  storage : Storage
  auth : AuthState
  redirects : List String
  toasts : List String
  errLog : List String
  netCalls : List String
deriving Repr, DecidableEq

/-- JavaScript truthiness of an optional string: `undefined`/`null`
and the empty string are falsy. -/
def truthyStr : Option String → Bool
  | none => false
  | some s => s ≠ ""

/-- The store action `setAuth` (`userAuthStore.ts` lines 18-25):
always updates `isAuthenticated`; updates `email` in memory and the
persisted `userEmail` key only when the optional `email` argument is
truthy. -/
def setAuth (auth : Bool) (email : Option String) (s : ClientState) : ClientState :=
  if truthyStr email then
    { s with auth := { isAuthenticated := auth, email := email },
             storage := { s.storage with userEmail := email } }
  else
    { s with auth := { s.auth with isAuthenticated := auth } }

/-- The store action `logout` (`userAuthStore.ts` lines 27-33).
`remote` is the settled outcome of `await apiClient.post('/logout')`;
a rejection propagates out of `logout` (there is no try/catch around
the `await`), so the three `removeItem` calls and the `set` run only
when the remote call fulfills. -/
def logout (remote : Except String Unit) (s : ClientState) :
    ClientState × Except String Unit :=
  let s1 := { s with netCalls := s.netCalls ++ ["POST /logout"] }
  match remote with
  | .error e => (s1, .error e)
  | .ok _ =>
    ({ s1 with
        storage := { authStore := none, accessToken := none, userEmail := none },
        auth := { isAuthenticated := false, email := none } },
      .ok ())

/-- The expiry check `isTokenExpired` (`userAxiosInstance.ts` lines
19-28). `decode` is the `jwtDecode` library boundary: it yields the
token's `exp` claim (seconds since epoch) or fails. The code compares
`exp <= currentTime` where `currentTime = Date.now() / 1000`; `nowSec`
is that quotient, i.e. the current time in seconds. A decode failure
is caught and reported as expired. -/
def isTokenExpired (decode : String → Option ℚ) (nowSec : ℚ) (token : String) : Bool :=
  match decode token with
  | some exp => decide (exp ≤ nowSec)
  | none => true

/-- Outcome of the `axios.post` to `/refresh-token`: either the promise
rejects (network error), or it fulfills with a body
`{success, accessToken}`. -/
inductive RefreshOutcome where
  | netError (msg : String)
  | reply (success : Bool) (accessToken : String)
deriving Repr, DecidableEq

/-- The try-block of `refreshAccessToken` (`userAxiosInstance.ts`
lines 31-51): await the POST; on a fulfilled response with
`success && accessToken` truthy, persist the token, call
`setAuth(true)` and return it; otherwise return null. A rejected
POST surfaces as `Except.error`. -/
def refreshAttempt (o : RefreshOutcome) (s : ClientState) :
    Except String (ClientState × Option String) :=
  match o with
  | .netError e => .error e
  | .reply success tok =>
    if success && decide (tok ≠ "") then
      .ok (setAuth true none
            { s with storage := { s.storage with accessToken := some tok } },
          some tok)
    else .ok (s, none)

/-- `refreshAccessToken` (`userAxiosInstance.ts` lines 30-56): the
whole body is wrapped in try/catch, so a rejection is logged to the
console and converted to a `null` return; the function never throws
to its caller. -/
def refreshAccessToken (o : RefreshOutcome) (s : ClientState) :
    ClientState × Option String :=
  let s1 := { s with netCalls := s.netCalls ++ ["POST /refresh-token"] }
  match refreshAttempt o s1 with
  | .ok r => r
  | .error e =>
    ({ s1 with errLog := s1.errLog ++ ["Error refreshing token: " ++ e] }, none)

/-- An axios request config as the interceptors see it: the url, the
`Authorization` header if set, and the `_retry` marker (absent, i.e.
`false`, on a fresh request). -/
structure ReqConfig where
  url : String
  authorization : Option String
  retry : Bool
deriving Repr, DecidableEq

/-- Result of the request interceptor: either the (possibly modified)
config proceeds to the network, or the request is rejected before
being sent. -/
inductive ReqResult where
  | proceed (cfg : ReqConfig) (s : ClientState)
  | reject (msg : String) (s : ClientState)
deriving Repr, DecidableEq

/-- The teardown performed by the request interceptor when refresh
yields no token (`userAxiosInstance.ts` lines 69-78): `setAuth(false)`,
remove the persisted `accessToken`, redirect to `/login`. -/
def sessionExpiredTeardown (s : ClientState) : ClientState :=
  let s1 := setAuth false none s
  let s2 := { s1 with storage := { s1.storage with accessToken := none } }
  { s2 with redirects := s2.redirects ++ ["/login"] }

/-- The request interceptor (`userAxiosInstance.ts` lines 58-98):
read the stored token; if absent (or falsy) pass the config through
untouched; if present and expired, refresh first — on success attach
the new token, on failure tear the session down and reject with a
terminal error; if present and valid attach it unchanged. -/
def requestInterceptor (decode : String → Option ℚ) (nowSec : ℚ)
    (refreshO : RefreshOutcome) (cfg : ReqConfig) (s : ClientState) : ReqResult :=
  match s.storage.accessToken with
  | none => .proceed cfg s
  | some token =>
    if token = "" then .proceed cfg s
    else if isTokenExpired decode nowSec token then
      match refreshAccessToken refreshO s with
      | (s1, some newToken) =>
        .proceed { cfg with authorization := some ("Bearer " ++ newToken) } s1
      | (s1, none) =>
        .reject "Session expired. Please login again." (sessionExpiredTeardown s1)
    else
      .proceed { cfg with authorization := some ("Bearer " ++ token) } s

/-- What the response-error interceptor decides to do: resend the
(marked) original request through the client, or reject with the
original error. -/
inductive RespAction where
  | resend (cfg : ReqConfig) (s : ClientState)
  | rejectOriginal (s : ClientState)
deriving Repr, DecidableEq

/-- The response interceptor's error handler (`userAxiosInstance.ts`
lines 104-133). On a 401 whose request is not yet marked `_retry`:
mark it, refresh; on success reattach the new bearer token and resend
via `apiClient(originalRequest)`; on failure remove the token, set the
session unauthenticated, toast, redirect and reject with the original
error. Every other error passes through as a rejection. -/
def responseOnError (refreshO : RefreshOutcome) (status : Option Nat)
    (cfg : ReqConfig) (s : ClientState) : RespAction :=
  if status = some 401 ∧ cfg.retry = false then
    let cfg1 : ReqConfig := { cfg with retry := true }
    match refreshAccessToken refreshO s with
    | (s1, some newToken) =>
      .resend { cfg1 with authorization := some ("Bearer " ++ newToken) } s1
    | (s1, none) =>
      let s2 := { s1 with storage := { s1.storage with accessToken := none } }
      let s3 := setAuth false none s2
      let s4 := { s3 with toasts := s3.toasts ++ ["Session expired. Please login again."] }
      .rejectOriginal { s4 with redirects := s4.redirects ++ ["/login"] }
  else .rejectOriginal s

/-- The settled outcome of one network transmission of the request:
a fulfilled response carrying `data`, or a rejection whose
`error.response?.status` is `status` (none when there was no HTTP
response at all, e.g. a network error). -/
inductive SendOutcome where
  | ok (data : String)
  | err (status : Option Nat)
deriving Repr, DecidableEq

/-- What the original caller of the client finally observes:
a fulfilled response, a rejected HTTP error (after interceptors), an
interceptor-made rejection ("Session expired..."), or exhaustion of
the supplied outcome trace. -/
inductive Final where
  | resp (data : String) (s : ClientState)
  | errStatus (status : Option Nat) (s : ClientState)
  | rejected (msg : String) (s : ClientState)
  | outOfTrace (s : ClientState)
deriving Repr, DecidableEq

/-- The send/response loop of the client: transmit the request
(logging the network call), feed a fulfilled response straight to the
caller, and feed a rejection to the response-error interceptor; a
resend goes through the request interceptor again (it is issued via
`apiClient(originalRequest)`) and consumes the next outcome of the
trace. -/
def sendLoop (decode : String → Option ℚ) (nowSec : ℚ) (refreshO : RefreshOutcome) :
    List SendOutcome → ReqConfig → ClientState → Final
  | [], _, s => .outOfTrace s
  | o :: rest, cfg, s =>
    let s1 := { s with netCalls := s.netCalls ++ [cfg.url] }
    match o with
    | .ok d => .resp d s1
    | .err st =>
      match responseOnError refreshO st cfg s1 with
      | .rejectOriginal s2 => .errStatus st s2
      | .resend cfg1 s2 =>
        match requestInterceptor decode nowSec refreshO cfg1 s2 with
        | .reject m s3 => .rejected m s3
        | .proceed cfg2 s3 => sendLoop decode nowSec refreshO rest cfg2 s3

/-- One logical request through `apiClient`: the request interceptor
runs first (a pre-send rejection means the request is never
transmitted), then the send/response loop. -/
def apiRequest (decode : String → Option ℚ) (nowSec : ℚ) (refreshO : RefreshOutcome)
    (trace : List SendOutcome) (cfg : ReqConfig) (s : ClientState) : Final :=
  match requestInterceptor decode nowSec refreshO cfg s with
  | .reject m s1 => .rejected m s1
  | .proceed cfg1 s1 => sendLoop decode nowSec refreshO trace cfg1 s1

/-- An error caught by an API wrapper: either an axios error (whose
server-supplied `response.data.message` may be absent) or any other
thrown value. -/
inductive ApiError where
  | axiosErr (message : Option String)
  | other (msg : String)
deriving Repr, DecidableEq

/-- `handleAxiosError` (`userApi.ts` lines 9-17): toast the server
message for an axios error (an absent message toasts as empty here),
or a generic message otherwise. -/
def handleAxiosError (e : ApiError) (s : ClientState) : ClientState :=
  match e with
  | .axiosErr m => { s with toasts := s.toasts ++ [m.getD ""] }
  | .other _ =>
    { s with toasts := s.toasts ++ ["Something went wrong. Please try again."] }

/-- Settled outcome of the awaited HTTP call inside a plain API
wrapper: a fulfilled response whose `data` is abstracted to a string,
or a thrown error. -/
inductive CallOutcome where
  | ok (data : String)
  | err (e : ApiError)
deriving Repr, DecidableEq

/-- Settled outcome of the awaited HTTP call inside `VerifyCode` and
`SignIn`, whose success bodies also carry
`response.data.data.accessToken` (and, for `SignIn`,
`response.data.data.email`, absent when the server omits it). -/
inductive AuthCallOutcome where
  | ok (data : String) (accessToken : String) (email : Option String)
  | err (e : ApiError)
deriving Repr, DecidableEq

/-- Result of an API wrapper as its caller sees it: the post-call
state, and either a normal return value (`none` models returning
`undefined` after a swallowed error) or a rethrown error. -/
abbrev WrapResult := ClientState × Except ApiError (Option String)

/-- `Signup` (`userApi.ts` lines 19-26): POST `/signup`; errors are
handled by `handleAxiosError` and swallowed (the wrapper returns
`undefined`). -/
def Signup (o : CallOutcome) (s : ClientState) : WrapResult :=
  let s1 := { s with netCalls := s.netCalls ++ ["POST /signup"] }
  match o with
  | .ok d => (s1, .ok (some d))
  | .err e => (handleAxiosError e s1, .ok none)

/-- `VerifyCode` (`userApi.ts` lines 28-42): POST `/verify-cache`; on
success, if the returned access token is truthy, persist it and call
`setAuth(true, email)` with the email ARGUMENT; errors are swallowed. -/
def VerifyCode (email : String) (o : AuthCallOutcome) (s : ClientState) : WrapResult :=
  let s1 := { s with netCalls := s.netCalls ++ ["POST /verify-cache"] }
  match o with
  | .ok d tok _ =>
    if tok ≠ "" then
      let s2 := { s1 with storage := { s1.storage with accessToken := some tok } }
      (setAuth true (some email) s2, .ok (some d))
    else (s1, .ok (some d))
  | .err e => (handleAxiosError e s1, .ok none)

/-- `SignIn` (`userApi.ts` lines 44-60): POST `/signin`; on success,
if the returned access token is truthy, persist it and call
`setAuth(true, email)` with the email FROM THE RESPONSE; errors are
swallowed. -/
def SignIn (o : AuthCallOutcome) (s : ClientState) : WrapResult :=
  let s1 := { s with netCalls := s.netCalls ++ ["POST /signin"] }
  match o with
  | .ok d tok em =>
    if tok ≠ "" then
      let s2 := { s1 with storage := { s1.storage with accessToken := some tok } }
      (setAuth true em s2, .ok (some d))
    else (s1, .ok (some d))
  | .err e => (handleAxiosError e s1, .ok none)

/-- `forgotPassword` (`userApi.ts` lines 63-71): POST
`/forgot-password`; errors are swallowed. -/
def forgotPassword (o : CallOutcome) (s : ClientState) : WrapResult :=
  let s1 := { s with netCalls := s.netCalls ++ ["POST /forgot-password"] }
  match o with
  | .ok d => (s1, .ok (some d))
  | .err e => (handleAxiosError e s1, .ok none)

/-- `resetPassword` (`userApi.ts` lines 73-81): POST
`/reset-password`; errors are swallowed. -/
def resetPassword (o : CallOutcome) (s : ClientState) : WrapResult :=
  let s1 := { s with netCalls := s.netCalls ++ ["POST /reset-password"] }
  match o with
  | .ok d => (s1, .ok (some d))
  | .err e => (handleAxiosError e s1, .ok none)

/-- `uploadImage` (`userApi.ts` lines 83-92): POST `/upload`; the ONLY
wrapper whose catch block rethrows the error after
`handleAxiosError`. -/
def uploadImage (o : CallOutcome) (s : ClientState) : WrapResult :=
  let s1 := { s with netCalls := s.netCalls ++ ["POST /upload"] }
  match o with
  | .ok d => (s1, .ok (some d))
  | .err e => (handleAxiosError e s1, .error e)

/-- `getImages` (`userApi.ts` lines 94-102): GET `/images`; errors are
swallowed. -/
def getImages (o : CallOutcome) (s : ClientState) : WrapResult :=
  let s1 := { s with netCalls := s.netCalls ++ ["GET /images"] }
  match o with
  | .ok d => (s1, .ok (some d))
  | .err e => (handleAxiosError e s1, .ok none)

/-- `updateImageOrder` (`userApi.ts` lines 105-113): POST
`/change-order`; errors are swallowed. -/
def updateImageOrder (o : CallOutcome) (s : ClientState) : WrapResult :=
  let s1 := { s with netCalls := s.netCalls ++ ["POST /change-order"] }
  match o with
  | .ok d => (s1, .ok (some d))
  | .err e => (handleAxiosError e s1, .ok none)

/-- `deleteImage` (`userApi.ts` lines 115-123): DELETE
`/delete-image/:id`; errors are swallowed. -/
def deleteImage (o : CallOutcome) (s : ClientState) : WrapResult :=
  let s1 := { s with netCalls := s.netCalls ++ ["DELETE /delete-image"] }
  match o with
  | .ok d => (s1, .ok (some d))
  | .err e => (handleAxiosError e s1, .ok none)

/-- `updateImage` (`userApi.ts` lines 125-133): POST
`/update-image/:id`; errors are swallowed. -/
def updateImage (o : CallOutcome) (s : ClientState) : WrapResult :=
  let s1 := { s with netCalls := s.netCalls ++ ["POST /update-image"] }
  match o with
  | .ok d => (s1, .ok (some d))
  | .err e => (handleAxiosError e s1, .ok none)

/-- State component of a request-interceptor result. -/
def ReqResult.state : ReqResult → ClientState
  | .proceed _ s => s
  | .reject _ s => s

/-- The value `refreshAccessToken` returns, as a function of the
network oracle alone: the token exactly when the reply fulfilled with
a truthy `success` and a truthy `accessToken`. -/
def refreshResult : RefreshOutcome → Option String
  | .netError _ => none
  | .reply success tok => if success && decide (tok ≠ "") then some tok else none

/- Helper lemmas about the embedded operations, shared by the claim
theorems below. -/

theorem setAuth_not_truthy (b : Bool) (e : Option String) (s : ClientState)
    (h : truthyStr e = false) :
    setAuth b e s = { s with auth := { s.auth with isAuthenticated := b } } := by
  simp [setAuth, h]

theorem refreshAccessToken_netError (e : String) (s : ClientState) :
    refreshAccessToken (.netError e) s =
      ({ s with netCalls := s.netCalls ++ ["POST /refresh-token"],
                errLog := s.errLog ++ ["Error refreshing token: " ++ e] }, none) := rfl

theorem refreshAccessToken_reply_pos (success : Bool) (tok : String) (s : ClientState)
    (hc : (success && decide (tok ≠ "")) = true) :
    refreshAccessToken (.reply success tok) s =
      (setAuth true none
        { s with netCalls := s.netCalls ++ ["POST /refresh-token"],
                 storage := { s.storage with accessToken := some tok } }, some tok) := by
  unfold refreshAccessToken refreshAttempt
  dsimp only
  rw [if_pos hc]

theorem refreshAccessToken_reply_neg (success : Bool) (tok : String) (s : ClientState)
    (hc : ¬ (success && decide (tok ≠ "")) = true) :
    refreshAccessToken (.reply success tok) s =
      ({ s with netCalls := s.netCalls ++ ["POST /refresh-token"] }, none) := by
  unfold refreshAccessToken refreshAttempt
  dsimp only
  rw [if_neg hc]

theorem refreshResult_reply_pos (success : Bool) (tok : String)
    (hc : (success && decide (tok ≠ "")) = true) :
    refreshResult (.reply success tok) = some tok := by
  unfold refreshResult
  dsimp only
  rw [if_pos hc]

theorem refreshResult_reply_neg (success : Bool) (tok : String)
    (hc : ¬ (success && decide (tok ≠ "")) = true) :
    refreshResult (.reply success tok) = none := by
  unfold refreshResult
  dsimp only
  rw [if_neg hc]

theorem setAuth_none (b : Bool) (s : ClientState) :
    setAuth b none s = { s with auth := { s.auth with isAuthenticated := b } } :=
  setAuth_not_truthy b none s rfl

theorem refresh_snd (o : RefreshOutcome) (s : ClientState) :
    (refreshAccessToken o s).2 = refreshResult o := by
  cases o with
  | netError e => rfl
  | reply success tok =>
    by_cases hc : (success && decide (tok ≠ "")) = true
    · rw [refreshAccessToken_reply_pos _ _ _ hc, refreshResult_reply_pos _ _ hc]
    · rw [refreshAccessToken_reply_neg _ _ _ hc, refreshResult_reply_neg _ _ hc]

theorem refresh_frame (o : RefreshOutcome) (s : ClientState) :
    (refreshAccessToken o s).1.redirects = s.redirects ∧
    (refreshAccessToken o s).1.toasts = s.toasts ∧
    (refreshAccessToken o s).1.storage.userEmail = s.storage.userEmail ∧
    (refreshAccessToken o s).1.storage.authStore = s.storage.authStore ∧
    (refreshAccessToken o s).1.auth.email = s.auth.email ∧
    (refreshAccessToken o s).1.netCalls = s.netCalls ++ ["POST /refresh-token"] := by
  cases o with
  | netError e => rw [refreshAccessToken_netError]; exact ⟨rfl, rfl, rfl, rfl, rfl, rfl⟩
  | reply success tok =>
    by_cases hc : (success && decide (tok ≠ "")) = true
    · rw [refreshAccessToken_reply_pos _ _ _ hc, setAuth_none]
      exact ⟨rfl, rfl, rfl, rfl, rfl, rfl⟩
    · rw [refreshAccessToken_reply_neg _ _ _ hc]
      exact ⟨rfl, rfl, rfl, rfl, rfl, rfl⟩

theorem refresh_some_state (o : RefreshOutcome) (s : ClientState) (n : String)
    (h : refreshResult o = some n) :
    (refreshAccessToken o s).1.storage.accessToken = some n ∧
    (refreshAccessToken o s).1.auth.isAuthenticated = true := by
  cases o with
  | netError e => exact absurd h (by simp [refreshResult])
  | reply success tok =>
    by_cases hc : (success && decide (tok ≠ "")) = true
    · rw [refreshResult_reply_pos _ _ hc] at h
      obtain rfl : tok = n := Option.some.inj h
      rw [refreshAccessToken_reply_pos _ _ _ hc, setAuth_none]
      exact ⟨rfl, rfl⟩
    · rw [refreshResult_reply_neg _ _ hc] at h
      exact absurd h (by simp)

theorem refresh_none_state (o : RefreshOutcome) (s : ClientState)
    (h : refreshResult o = none) :
    (refreshAccessToken o s).1.storage = s.storage ∧
    (refreshAccessToken o s).1.auth = s.auth := by
  cases o with
  | netError e => rw [refreshAccessToken_netError]; exact ⟨rfl, rfl⟩
  | reply success tok =>
    by_cases hc : (success && decide (tok ≠ "")) = true
    · rw [refreshResult_reply_pos _ _ hc] at h
      exact absurd h (by simp)
    · rw [refreshAccessToken_reply_neg _ _ _ hc]
      exact ⟨rfl, rfl⟩

theorem refresh_pair (o : RefreshOutcome) (s : ClientState) :
    refreshAccessToken o s = ((refreshAccessToken o s).1, refreshResult o) := by
  rw [← refresh_snd o s]

theorem bearer_inj (a b : String) (h : "Bearer " ++ a = "Bearer " ++ b) : a = b := by
  have h2 : ("Bearer " ++ a).data = ("Bearer " ++ b).data := congrArg String.data h
  simp only [String.data_append] at h2
  exact String.ext (List.append_cancel_left h2)

theorem reqInt_valid (decode : String → Option ℚ) (nowSec : ℚ) (refreshO : RefreshOutcome)
    (cfg : ReqConfig) (s : ClientState) (t : String)
    (hst : s.storage.accessToken = some t) (hne : t ≠ "")
    (hexp : isTokenExpired decode nowSec t = false) :
    requestInterceptor decode nowSec refreshO cfg s
      = .proceed { cfg with authorization := some ("Bearer " ++ t) } s := by
  unfold requestInterceptor
  rw [hst]
  dsimp only
  rw [if_neg hne, if_neg (by rw [hexp]; exact Bool.false_ne_true)]

theorem reqInt_expired_some (decode : String → Option ℚ) (nowSec : ℚ)
    (refreshO : RefreshOutcome) (cfg : ReqConfig) (s : ClientState) (t n : String)
    (hst : s.storage.accessToken = some t) (hne : t ≠ "")
    (hexp : isTokenExpired decode nowSec t = true)
    (hn : refreshResult refreshO = some n) :
    requestInterceptor decode nowSec refreshO cfg s
      = .proceed { cfg with authorization := some ("Bearer " ++ n) }
          (refreshAccessToken refreshO s).1 := by
  unfold requestInterceptor
  rw [hst]
  dsimp only
  rw [if_neg hne, if_pos hexp, refresh_pair, hn]

theorem reqInt_expired_none (decode : String → Option ℚ) (nowSec : ℚ)
    (refreshO : RefreshOutcome) (cfg : ReqConfig) (s : ClientState) (t : String)
    (hst : s.storage.accessToken = some t) (hne : t ≠ "")
    (hexp : isTokenExpired decode nowSec t = true)
    (hn : refreshResult refreshO = none) :
    requestInterceptor decode nowSec refreshO cfg s
      = .reject "Session expired. Please login again."
          (sessionExpiredTeardown (refreshAccessToken refreshO s).1) := by
  unfold requestInterceptor
  rw [hst]
  dsimp only
  rw [if_neg hne, if_pos hexp, refresh_pair, hn]

theorem respErr_401_fresh_some (refreshO : RefreshOutcome) (cfg : ReqConfig)
    (s : ClientState) (n : String) (hr : cfg.retry = false)
    (hn : refreshResult refreshO = some n) :
    responseOnError refreshO (some 401) cfg s
      = .resend { cfg with retry := true, authorization := some ("Bearer " ++ n) }
          (refreshAccessToken refreshO s).1 := by
  unfold responseOnError
  rw [if_pos ⟨rfl, hr⟩]
  dsimp only
  rw [refresh_pair, hn]

theorem respErr_401_fresh_none (refreshO : RefreshOutcome) (cfg : ReqConfig)
    (s : ClientState) (hr : cfg.retry = false)
    (hn : refreshResult refreshO = none) :
    ∃ s4, responseOnError refreshO (some 401) cfg s = .rejectOriginal s4 ∧
      s4.storage.accessToken = none ∧
      s4.auth.isAuthenticated = false ∧
      s4.auth.email = s.auth.email ∧
      s4.redirects = s.redirects ++ ["/login"] ∧
      s4.toasts = s.toasts ++ ["Session expired. Please login again."] ∧
      s4.netCalls = s.netCalls ++ ["POST /refresh-token"] := by
  obtain ⟨hred, htoast, _, _, hmail, hnet⟩ := refresh_frame refreshO s
  unfold responseOnError
  rw [if_pos ⟨rfl, hr⟩]
  dsimp only
  rw [refresh_pair, hn]
  dsimp only
  rw [setAuth_none]
  exact ⟨_, rfl, rfl, rfl, hmail, by rw [hred], by rw [htoast], by rw [hnet]⟩

theorem respErr_pass (refreshO : RefreshOutcome) (status : Option Nat)
    (cfg : ReqConfig) (s : ClientState)
    (h : ¬ (status = some 401 ∧ cfg.retry = false)) :
    responseOnError refreshO status cfg s = .rejectOriginal s := by
  unfold responseOnError
  rw [if_neg h]

/- Concrete fixtures used by the counterexample and the witnesses. -/

/-- A concrete `jwtDecode`: `oldTok` carries `exp = 10`, `newTok`
carries a far-future `exp`, anything else fails to decode. -/
def decodeEx : String → Option ℚ := fun t =>
  if t = "oldTok" then some 10
  else if t = "newTok" then some 2000000000
  else none

/-- A concrete current time in seconds (`Date.now() / 1000`):
`oldTok` is expired under it, `newTok` is not. -/
def nowSecEx : ℚ := 1000000

/-- A concrete starting world: authenticated session, `oldTok`
persisted. -/
def baseState : ClientState :=
  { storage := { authStore := some "blob", accessToken := some "oldTok",
                 userEmail := some "u@example.com" },
    auth := { isAuthenticated := true, email := some "u@example.com" },
    redirects := [], toasts := [], errLog := [], netCalls := [] }

/-- A concrete fresh request. -/
def cfgEx : ReqConfig := { url := "GET /images", authorization := none, retry := false }

/-- A state whose persisted token is the valid `newTok`. -/
def validState : ClientState :=
  { baseState with storage := { baseState.storage with accessToken := some "newTok" } }

/-- A state whose persisted token is a string `jwtDecode` cannot
decode. -/
def garbageState : ClientState :=
  { baseState with storage := { baseState.storage with accessToken := some "garbage" } }

theorem teardown_fields (s : ClientState) :
    (sessionExpiredTeardown s).storage.accessToken = none ∧
    (sessionExpiredTeardown s).auth.isAuthenticated = false ∧
    (sessionExpiredTeardown s).auth.email = s.auth.email ∧
    (sessionExpiredTeardown s).redirects = s.redirects ++ ["/login"] ∧
    (sessionExpiredTeardown s).toasts = s.toasts ∧
    (sessionExpiredTeardown s).netCalls = s.netCalls := by
  unfold sessionExpiredTeardown
  dsimp only
  rw [setAuth_none]
  exact ⟨rfl, rfl, rfl, rfl, rfl, rfl⟩

theorem expired_proceed_auth (decode : String → Option ℚ) (nowSec : ℚ)
    (refreshO : RefreshOutcome) (cfg : ReqConfig) (s : ClientState) (t : String)
    (hst : s.storage.accessToken = some t) (hne : t ≠ "")
    (hexp : isTokenExpired decode nowSec t = true) :
    ∀ cfg1 s1, requestInterceptor decode nowSec refreshO cfg s = .proceed cfg1 s1 →
      ∃ n, refreshResult refreshO = some n ∧
        cfg1.authorization = some ("Bearer " ++ n) ∧
        (n ≠ t → cfg1.authorization ≠ some ("Bearer " ++ t)) := by
  intro cfg1 s1 hrun
  cases hn : refreshResult refreshO with
  | none =>
    rw [reqInt_expired_none decode nowSec refreshO cfg s t hst hne hexp hn] at hrun
    exact absurd hrun (by simp)
  | some n =>
    rw [reqInt_expired_some decode nowSec refreshO cfg s t n hst hne hexp hn] at hrun
    injection hrun with h1 h2
    refine ⟨n, rfl, ?_, ?_⟩
    · rw [← h1]
    · intro hneq hcontra
      rw [← h1] at hcontra
      exact hneq (bearer_inj n t (Option.some.inj hcontra))

theorem sendLoop_err (decode : String → Option ℚ) (nowSec : ℚ)
    (refreshO : RefreshOutcome) (st : Option Nat) (rest : List SendOutcome)
    (cfg : ReqConfig) (s : ClientState) :
    sendLoop decode nowSec refreshO (.err st :: rest) cfg s
      = (match responseOnError refreshO st cfg
            { s with netCalls := s.netCalls ++ [cfg.url] } with
         | .rejectOriginal s2 => .errStatus st s2
         | .resend cfg1 s2 =>
           match requestInterceptor decode nowSec refreshO cfg1 s2 with
           | .reject m s3 => .rejected m s3
           | .proceed cfg2 s3 => sendLoop decode nowSec refreshO rest cfg2 s3) := rfl

theorem sendLoop_401_step (decode : String → Option ℚ) (nowSec : ℚ)
    (refreshO : RefreshOutcome) (rest : List SendOutcome) (cfg : ReqConfig)
    (s : ClientState) (n : String)
    (hr : cfg.retry = false) (hn : refreshResult refreshO = some n)
    (hne : n ≠ "") (hval : isTokenExpired decode nowSec n = false) :
    sendLoop decode nowSec refreshO (.err (some 401) :: rest) cfg s
      = sendLoop decode nowSec refreshO rest
          { cfg with retry := true, authorization := some ("Bearer " ++ n) }
          (refreshAccessToken refreshO { s with netCalls := s.netCalls ++ [cfg.url] }).1 := by
  rw [sendLoop_err]
  rw [respErr_401_fresh_some refreshO cfg _ n hr hn]
  dsimp only
  have hst := (refresh_some_state refreshO
    { s with netCalls := s.netCalls ++ [cfg.url] } n hn).1
  rw [reqInt_valid decode nowSec refreshO _ _ n hst hne hval]

theorem sendLoop_retried_401 (decode : String → Option ℚ) (nowSec : ℚ)
    (refreshO : RefreshOutcome) (rest : List SendOutcome) (cfg : ReqConfig)
    (s : ClientState) (hr : cfg.retry = true) :
    sendLoop decode nowSec refreshO (.err (some 401) :: rest) cfg s
      = .errStatus (some 401) { s with netCalls := s.netCalls ++ [cfg.url] } := by
  rw [sendLoop_err]
  rw [respErr_pass _ _ _ _ (by simp [hr])]

/-- C1 counterexample: when the awaited `apiClient.post('/logout')`
rejects, `logout` propagates the rejection and performs NO local
teardown — all three persisted keys survive and the session stays
authenticated, refuting "the local teardown is unconditional". -/
theorem logout_not_unconditional_cex :
    (logout (.error "Network Error") baseState).1.storage.accessToken = some "oldTok" ∧
    (logout (.error "Network Error") baseState).1.storage.authStore = some "blob" ∧
    (logout (.error "Network Error") baseState).1.storage.userEmail = some "u@example.com" ∧
    (logout (.error "Network Error") baseState).1.auth.isAuthenticated = true ∧
    (logout (.error "Network Error") baseState).2 = .error "Network Error" :=
  ⟨rfl, rfl, rfl, rfl, rfl⟩

/-- C1 (amended): `logout` removes the three persisted keys
(`auth-store`, `accessToken`, `userEmail`) and resets the session to
unauthenticated exactly when the remote `/logout` call fulfills; when
the remote call rejects, the rejection propagates and the local state
is left untouched (beyond the logged network call). -/
theorem logout_teardown_iff_remote_fulfills (s : ClientState) (e : String) :
    logout (.ok ()) s
      = ({ s with netCalls := s.netCalls ++ ["POST /logout"],
                  storage := { authStore := none, accessToken := none, userEmail := none },
                  auth := { isAuthenticated := false, email := none } }, .ok ()) ∧
    logout (.error e) s
      = ({ s with netCalls := s.netCalls ++ ["POST /logout"] }, .error e) :=
  ⟨rfl, rfl⟩

/-- C6: `refreshAccessToken` never throws — a rejected POST is caught,
logged and converted into a `none` return with no state change beyond
the logs; a fulfilled `{success: true, accessToken}` body persists the
token, sets `isAuthenticated` and returns the token; a fulfilled
non-success body returns `none` with no state change. -/
theorem refreshAccessToken_contract (s : ClientState) (e tok : String) (success : Bool) :
    refreshAccessToken (.netError e) s
      = ({ s with netCalls := s.netCalls ++ ["POST /refresh-token"],
                  errLog := s.errLog ++ ["Error refreshing token: " ++ e] }, none) ∧
    (tok ≠ "" →
      (refreshAccessToken (.reply true tok) s).2 = some tok ∧
      (refreshAccessToken (.reply true tok) s).1.storage.accessToken = some tok ∧
      (refreshAccessToken (.reply true tok) s).1.auth.isAuthenticated = true) ∧
    (success = false ∨ tok = "" →
      refreshAccessToken (.reply success tok) s
        = ({ s with netCalls := s.netCalls ++ ["POST /refresh-token"] }, none)) := by
  refine ⟨refreshAccessToken_netError e s, ?_, ?_⟩
  · intro hne
    have hc : (true && decide (tok ≠ "")) = true := by simp [hne]
    have hres := refreshResult_reply_pos true tok hc
    exact ⟨by rw [refresh_snd, hres],
           (refresh_some_state _ s tok hres).1,
           (refresh_some_state _ s tok hres).2⟩
  · intro h
    have hc : ¬ (success && decide (tok ≠ "")) = true := by
      cases h with
      | inl h => simp [h]
      | inr h => simp [h]
    exact refreshAccessToken_reply_neg success tok s hc

/-- C6 witness: the contract evaluated at the concrete fixture, for a
fulfilled success body carrying `newTok` and for a fulfilled
non-success body. -/
theorem refreshAccessToken_contract_witness :
    ((refreshAccessToken (.reply true "newTok") baseState).2 = some "newTok" ∧
     (refreshAccessToken (.reply true "newTok") baseState).1.storage.accessToken = some "newTok" ∧
     (refreshAccessToken (.reply true "newTok") baseState).1.auth.isAuthenticated = true) ∧
    refreshAccessToken (.reply false "ignored") baseState
      = ({ baseState with netCalls := baseState.netCalls ++ ["POST /refresh-token"] }, none) :=
  ⟨(refreshAccessToken_contract baseState "e" "newTok" false).2.1 (by decide),
   (refreshAccessToken_contract baseState "e" "ignored" false).2.2 (Or.inl rfl)⟩

/-- C9: `setAuth` called without an email (or with the falsy empty
email) updates only `isAuthenticated`, leaving the in-memory `email`
and the persisted `userEmail` key unchanged; consequently a successful
refresh, which calls `setAuth(true)`, preserves the stored email — and
indeed `refreshAccessToken` never changes either email field for any
outcome. -/
theorem setAuth_email_frame (b : Bool) (s : ClientState) (o : RefreshOutcome) :
    (setAuth b none s).auth.email = s.auth.email ∧
    (setAuth b none s).storage.userEmail = s.storage.userEmail ∧
    (setAuth b none s).auth.isAuthenticated = b ∧
    (setAuth b (some "") s).auth.email = s.auth.email ∧
    (setAuth b (some "") s).storage.userEmail = s.storage.userEmail ∧
    (setAuth b (some "") s).auth.isAuthenticated = b ∧
    (refreshAccessToken o s).1.auth.email = s.auth.email ∧
    (refreshAccessToken o s).1.storage.userEmail = s.storage.userEmail := by
  obtain ⟨_, _, hmailKey, _, hmail, _⟩ := refresh_frame o s
  rw [setAuth_none, setAuth_not_truthy b (some "") s (by decide)]
  exact ⟨rfl, rfl, rfl, rfl, rfl, rfl, hmail, hmailKey⟩

/-- C7: with a present, non-empty, non-expired stored token, the
request interceptor attaches it unchanged as a bearer header without
touching the state (in particular no refresh call), and a fulfilled
request issues exactly one network call. -/
theorem validToken_attached_unchanged (decode : String → Option ℚ) (nowSec : ℚ)
    (refreshO : RefreshOutcome) (cfg : ReqConfig) (s : ClientState)
    (t d : String) (rest : List SendOutcome)
    (hst : s.storage.accessToken = some t) (hne : t ≠ "")
    (hexp : isTokenExpired decode nowSec t = false) :
    requestInterceptor decode nowSec refreshO cfg s
      = .proceed { cfg with authorization := some ("Bearer " ++ t) } s ∧
    apiRequest decode nowSec refreshO (SendOutcome.ok d :: rest) cfg s
      = .resp d { s with netCalls := s.netCalls ++ [cfg.url] } := by
  have h := reqInt_valid decode nowSec refreshO cfg s t hst hne hexp
  refine ⟨h, ?_⟩
  unfold apiRequest
  rw [h]
  rfl

/-- C7 witness: the valid token `newTok` is attached unchanged and the
whole request issues exactly one network call. -/
theorem validToken_attached_unchanged_witness :
    requestInterceptor decodeEx nowSecEx (.netError "down") cfgEx validState
      = .proceed { cfgEx with authorization := some ("Bearer " ++ "newTok") } validState ∧
    apiRequest decodeEx nowSecEx (.netError "down") [SendOutcome.ok "DATA"] cfgEx validState
      = .resp "DATA" { validState with netCalls := validState.netCalls ++ [cfgEx.url] } :=
  validToken_attached_unchanged decodeEx nowSecEx (.netError "down") cfgEx validState
    "newTok" "DATA" [] rfl (by decide) (by decide)

/-- C2: with a present, non-empty, EXPIRED stored token, the request
interceptor calls refresh before anything is sent (the refresh call is
the only network call it adds, and it precedes the request's own send);
whenever the request does proceed, its bearer header carries the token
refresh returned — never the expired one (the two can only coincide if
refresh returned the very same string). -/
theorem expiredToken_refresh_before_send (decode : String → Option ℚ) (nowSec : ℚ)
    (refreshO : RefreshOutcome) (cfg : ReqConfig) (s : ClientState) (t : String)
    (hst : s.storage.accessToken = some t) (hne : t ≠ "")
    (hexp : isTokenExpired decode nowSec t = true) :
    (requestInterceptor decode nowSec refreshO cfg s).state.netCalls
        = s.netCalls ++ ["POST /refresh-token"] ∧
    (∀ cfg1 s1, requestInterceptor decode nowSec refreshO cfg s = .proceed cfg1 s1 →
      ∃ n, refreshResult refreshO = some n ∧
        cfg1.authorization = some ("Bearer " ++ n) ∧
        (n ≠ t → cfg1.authorization ≠ some ("Bearer " ++ t))) ∧
    (∀ n d rest, refreshResult refreshO = some n →
      ∃ sF, apiRequest decode nowSec refreshO (SendOutcome.ok d :: rest) cfg s
              = .resp d sF ∧
        sF.netCalls = s.netCalls ++ ["POST /refresh-token", cfg.url]) := by
  obtain ⟨_, _, _, _, _, hnet⟩ := refresh_frame refreshO s
  refine ⟨?_, expired_proceed_auth decode nowSec refreshO cfg s t hst hne hexp, ?_⟩
  · cases hn : refreshResult refreshO with
    | none =>
      rw [reqInt_expired_none decode nowSec refreshO cfg s t hst hne hexp hn]
      exact ((teardown_fields _).2.2.2.2.2).trans hnet
    | some n =>
      rw [reqInt_expired_some decode nowSec refreshO cfg s t n hst hne hexp hn]
      exact hnet
  · intro n d rest hn
    refine ⟨{ (refreshAccessToken refreshO s).1 with
              netCalls := (refreshAccessToken refreshO s).1.netCalls ++ [cfg.url] }, ?_, ?_⟩
    · unfold apiRequest
      rw [reqInt_expired_some decode nowSec refreshO cfg s t n hst hne hexp hn]
      rfl
    · rw [hnet]
      simp

/-- C2 witness: `oldTok` is expired under the fixture clock; a request
at `baseState` triggers the refresh first and, with a successful
refresh, the network sees the refresh call then the request. -/
theorem expiredToken_refresh_before_send_witness :
    (requestInterceptor decodeEx nowSecEx (.reply true "newTok") cfgEx baseState).state.netCalls
        = ["POST /refresh-token"] ∧
    (∃ sF, apiRequest decodeEx nowSecEx (.reply true "newTok")
             [SendOutcome.ok "DATA"] cfgEx baseState = .resp "DATA" sF ∧
       sF.netCalls = ["POST /refresh-token", "GET /images"]) :=
  ⟨(expiredToken_refresh_before_send decodeEx nowSecEx (.reply true "newTok") cfgEx
      baseState "oldTok" rfl (by decide) (by decide)).1,
   (expiredToken_refresh_before_send decodeEx nowSecEx (.reply true "newTok") cfgEx
      baseState "oldTok" rfl (by decide) (by decide)).2.2 "newTok" "DATA" [] rfl⟩

/-- C8: a token the decoder cannot parse is reported expired (fail
closed); consequently, when such a token is the stored one, any request
that proceeds carries the refresh-returned bearer token, never the
malformed stored string (unless refresh literally returned that same
string). -/
theorem decode_failure_fails_closed (decode : String → Option ℚ) (nowSec : ℚ)
    (refreshO : RefreshOutcome) (cfg : ReqConfig) (s : ClientState) (t : String)
    (hdec : decode t = none) :
    isTokenExpired decode nowSec t = true ∧
    (s.storage.accessToken = some t → t ≠ "" →
      ∀ cfg1 s1, requestInterceptor decode nowSec refreshO cfg s = .proceed cfg1 s1 →
        ∃ n, refreshResult refreshO = some n ∧
          cfg1.authorization = some ("Bearer " ++ n) ∧
          (n ≠ t → cfg1.authorization ≠ some ("Bearer " ++ t))) := by
  have hexp : isTokenExpired decode nowSec t = true := by
    unfold isTokenExpired
    rw [hdec]
  exact ⟨hexp, fun hst hne =>
    expired_proceed_auth decode nowSec refreshO cfg s t hst hne hexp⟩

/-- C8 witness: the undecodable string `garbage` is treated as
expired. -/
theorem decode_failure_fails_closed_witness :
    decodeEx "garbage" = none ∧
    isTokenExpired decodeEx nowSecEx "garbage" = true :=
  ⟨by decide,
   (decode_failure_fails_closed decodeEx nowSecEx (.reply true "newTok") cfgEx
      garbageState "garbage" (by decide)).1⟩

/-- C5: when refresh fails, (pre-send trigger) the expired-token path
removes the persisted token, sets the session unauthenticated,
redirects to the login view exactly once, and rejects the request with
the terminal session-expired error without ever sending it (its only
network call is the refresh); (post-401 trigger) the response handler
does the same teardown plus the toast and rejects with the original
error. -/
theorem refresh_failure_teardown (decode : String → Option ℚ) (nowSec : ℚ)
    (refreshO : RefreshOutcome) (cfg : ReqConfig) (s : ClientState)
    (t : String) (status : Option Nat) :
    (s.storage.accessToken = some t → t ≠ "" →
      isTokenExpired decode nowSec t = true →
      refreshResult refreshO = none →
      ∃ sF, (∀ trace, apiRequest decode nowSec refreshO trace cfg s
              = .rejected "Session expired. Please login again." sF) ∧
        sF.storage.accessToken = none ∧
        sF.auth.isAuthenticated = false ∧
        sF.redirects = s.redirects ++ ["/login"] ∧
        sF.netCalls = s.netCalls ++ ["POST /refresh-token"]) ∧
    (status = some 401 → cfg.retry = false →
      refreshResult refreshO = none →
      ∃ s4, responseOnError refreshO status cfg s = .rejectOriginal s4 ∧
        s4.storage.accessToken = none ∧
        s4.auth.isAuthenticated = false ∧
        s4.redirects = s.redirects ++ ["/login"] ∧
        s4.toasts = s.toasts ++ ["Session expired. Please login again."]) := by
  constructor
  · intro hst hne hexp hn
    obtain ⟨hred, _, _, _, _, hnet⟩ := refresh_frame refreshO s
    obtain ⟨hacc, hauth, _, hredT, _, hnetT⟩ :=
      teardown_fields (refreshAccessToken refreshO s).1
    refine ⟨sessionExpiredTeardown (refreshAccessToken refreshO s).1, ?_,
            hacc, hauth, ?_, ?_⟩
    · intro trace
      unfold apiRequest
      rw [reqInt_expired_none decode nowSec refreshO cfg s t hst hne hexp hn]
    · rw [hredT, hred]
    · rw [hnetT, hnet]
  · intro hstat hr hn
    subst hstat
    obtain ⟨s4, heq, h1, h2, _, h4, h5, _⟩ := respErr_401_fresh_none refreshO cfg s hr hn
    exact ⟨s4, heq, h1, h2, h4, h5⟩

/-- C5 witness: with the expired `oldTok` stored and the refresh POST
rejecting, the pre-send trigger tears the session down and the request
is never sent; the post-401 trigger tears down with the toast. -/
theorem refresh_failure_teardown_witness :
    (∃ sF, (∀ trace, apiRequest decodeEx nowSecEx (.netError "down") trace cfgEx baseState
            = .rejected "Session expired. Please login again." sF) ∧
       sF.storage.accessToken = none ∧
       sF.auth.isAuthenticated = false ∧
       sF.redirects = baseState.redirects ++ ["/login"] ∧
       sF.netCalls = baseState.netCalls ++ ["POST /refresh-token"]) ∧
    (∃ s4, responseOnError (.netError "down") (some 401) cfgEx baseState
            = .rejectOriginal s4 ∧
       s4.storage.accessToken = none ∧
       s4.auth.isAuthenticated = false ∧
       s4.redirects = baseState.redirects ++ ["/login"] ∧
       s4.toasts = baseState.toasts ++ ["Session expired. Please login again."]) :=
  ⟨(refresh_failure_teardown decodeEx nowSecEx (.netError "down") cfgEx baseState
      "oldTok" (some 401)).1 rfl (by decide) (by decide) rfl,
   (refresh_failure_teardown decodeEx nowSecEx (.netError "down") cfgEx baseState
      "oldTok" (some 401)).2 rfl rfl rfl⟩

/-- C3: on a 401 for a not-yet-retried request, the handler marks the
request retried, refreshes, and on refresh success resends the original
request with the new bearer token through the client — so the caller's
result is the resent request's outcome, never the intermediate 401; a
fulfilled resend yields exactly three network calls (request, refresh,
request). -/
theorem retry401_refresh_and_resend (decode : String → Option ℚ) (nowSec : ℚ)
    (refreshO : RefreshOutcome) (rest : List SendOutcome) (cfg : ReqConfig)
    (s : ClientState) (n : String)
    (hr : cfg.retry = false) (hn : refreshResult refreshO = some n)
    (hne : n ≠ "") (hval : isTokenExpired decode nowSec n = false) :
    responseOnError refreshO (some 401) cfg s
      = .resend { cfg with retry := true, authorization := some ("Bearer " ++ n) }
          (refreshAccessToken refreshO s).1 ∧
    sendLoop decode nowSec refreshO (SendOutcome.err (some 401) :: rest) cfg s
      = sendLoop decode nowSec refreshO rest
          { cfg with retry := true, authorization := some ("Bearer " ++ n) }
          (refreshAccessToken refreshO { s with netCalls := s.netCalls ++ [cfg.url] }).1 ∧
    (∀ d rest2, ∃ sF,
       sendLoop decode nowSec refreshO
           (SendOutcome.err (some 401) :: SendOutcome.ok d :: rest2) cfg s
         = .resp d sF ∧
       sF.netCalls = s.netCalls ++ [cfg.url, "POST /refresh-token", cfg.url]) := by
  refine ⟨respErr_401_fresh_some refreshO cfg s n hr hn,
          sendLoop_401_step decode nowSec refreshO rest cfg s n hr hn hne hval, ?_⟩
  intro d rest2
  rw [sendLoop_401_step decode nowSec refreshO _ cfg s n hr hn hne hval]
  obtain ⟨_, _, _, _, _, hnet⟩ :=
    refresh_frame refreshO { s with netCalls := s.netCalls ++ [cfg.url] }
  refine ⟨_, rfl, ?_⟩
  dsimp only
  rw [hnet]
  simp

/-- C3 witness: `GET /images` answers 401, refresh succeeds with
`newTok`, the resend fulfills: the caller sees the fulfilled response
and the network saw request, refresh, request. -/
theorem retry401_refresh_and_resend_witness :
    ∃ sF, sendLoop decodeEx nowSecEx (.reply true "newTok")
            [SendOutcome.err (some 401), SendOutcome.ok "DATA"] cfgEx baseState
          = .resp "DATA" sF ∧
      sF.netCalls = ["GET /images", "POST /refresh-token", "GET /images"] :=
  (retry401_refresh_and_resend decodeEx nowSecEx (.reply true "newTok") [] cfgEx
    baseState "newTok" rfl rfl (by decide) (by decide)).2.2 "DATA" []

/-- C4: the `_retry` flag caps the 401-triggered retry at one — any
request already marked retried has its 401 passed straight through with
no further refresh; end to end, two consecutive 401s mean the loop
stops after the single resend and surfaces the second 401 to the
caller, whatever outcomes would follow. -/
theorem retry401_at_most_once (decode : String → Option ℚ) (nowSec : ℚ)
    (refreshO : RefreshOutcome) (rest : List SendOutcome) (cfg : ReqConfig)
    (s : ClientState) (n : String)
    (hr : cfg.retry = false) (hn : refreshResult refreshO = some n)
    (hne : n ≠ "") (hval : isTokenExpired decode nowSec n = false) :
    (∀ cfg1 s1, cfg1.retry = true →
       responseOnError refreshO (some 401) cfg1 s1 = .rejectOriginal s1) ∧
    ∃ sF, sendLoop decode nowSec refreshO
            (SendOutcome.err (some 401) :: SendOutcome.err (some 401) :: rest) cfg s
          = .errStatus (some 401) sF ∧
      sF.netCalls = s.netCalls ++ [cfg.url, "POST /refresh-token", cfg.url] := by
  refine ⟨fun cfg1 s1 h1 => respErr_pass refreshO (some 401) cfg1 s1 (by simp [h1]), ?_⟩
  rw [sendLoop_401_step decode nowSec refreshO _ cfg s n hr hn hne hval]
  rw [sendLoop_retried_401 decode nowSec refreshO rest _ _ rfl]
  obtain ⟨_, _, _, _, _, hnet⟩ :=
    refresh_frame refreshO { s with netCalls := s.netCalls ++ [cfg.url] }
  refine ⟨_, rfl, ?_⟩
  dsimp only
  rw [hnet]
  simp

/-- C4 witness: two 401s in a row with a succeeding refresh — the loop
stops and the caller sees the second 401 after exactly three network
calls, even though further outcomes were available. -/
theorem retry401_at_most_once_witness :
    ∃ sF, sendLoop decodeEx nowSecEx (.reply true "newTok")
            [SendOutcome.err (some 401), SendOutcome.err (some 401),
             SendOutcome.ok "UNREACHED"] cfgEx baseState
          = .errStatus (some 401) sF ∧
      sF.netCalls = ["GET /images", "POST /refresh-token", "GET /images"] :=
  (retry401_at_most_once decodeEx nowSecEx (.reply true "newTok")
    [SendOutcome.ok "UNREACHED"] cfgEx baseState "newTok"
    rfl rfl (by decide) (by decide)).2

/-- C10: among the API wrappers, only `uploadImage` rethrows the caught
error to its caller (after toasting); the other nine swallow it and
return `undefined`. -/
theorem only_uploadImage_rethrows (e : ApiError) (em : String) (s : ClientState) :
    (uploadImage (.err e) s).2 = .error e ∧
    (uploadImage (.err e) s).1.toasts.length = s.toasts.length + 1 ∧
    (Signup (.err e) s).2 = .ok none ∧
    (VerifyCode em (.err e) s).2 = .ok none ∧
    (SignIn (.err e) s).2 = .ok none ∧
    (forgotPassword (.err e) s).2 = .ok none ∧
    (resetPassword (.err e) s).2 = .ok none ∧
    (getImages (.err e) s).2 = .ok none ∧
    (updateImageOrder (.err e) s).2 = .ok none ∧
    (deleteImage (.err e) s).2 = .ok none ∧
    (updateImage (.err e) s).2 = .ok none := by
  refine ⟨rfl, ?_, rfl, rfl, rfl, rfl, rfl, rfl, rfl, rfl, rfl⟩
  cases e <;> simp [uploadImage, handleAxiosError]

end GalleryApp
